import Mathlib

/-!
Verification of the hill_shading repository (intensity.py, hillshade.py).

The numeric model embeds the numpy float computations over the exact reals ℝ.
A second, float-aware model (`FVal`) is introduced further below for the
claims whose content is the propagation of IEEE non-finite values (NaN/Inf)
and the absence of guards against them.

2D arrays of shape (m, n) are embedded as functions `ℕ → ℕ → ℝ` together with
explicit row/column counts; only indices `i < m`, `j < n` are meaningful.
-/

namespace HillShading

noncomputable section

/-- 3-vectors in (height, row, col) component order, matching the component
order of `np.dstack((dr, ones, zeros))` in `surface_unit_normals` and of the
`np.array([height, row, col])` returned by `polar_to_cart3d`. -/
structure Vec3 where
  h : ℝ
  r : ℝ
  c : ℝ

/-- Componentwise cross product of 3-vectors, as computed by `np.cross` on the
last axis (components indexed 0,1,2 = h,r,c). -/
def cross (a b : Vec3) : Vec3 :=
  ⟨a.r * b.c - a.c * b.r, a.c * b.h - a.h * b.c, a.h * b.r - a.r * b.h⟩

/-- Dot product of 3-vectors, as computed by `np.dot(normals, light)` per pixel. -/
def dot3 (a b : Vec3) : ℝ :=
  a.h * b.h + a.r * b.r + a.c * b.c

/-- Euclidean norm of a 3-vector, as computed by `np.linalg.norm(..., axis=2)`. -/
def norm3 (v : Vec3) : ℝ :=
  Real.sqrt (v.h ^ 2 + v.r ^ 2 + v.c ^ 2)

/-- Embedding of `np.gradient(terrain)` along axis 0 (rows), for an array with
`m` rows: one-sided differences at the two boundary rows, central differences
(divided by 2) in the interior.  This is numpy's default `edge_order=1`
behaviour. -/
def npGradient0 (m : ℕ) (t : ℕ → ℕ → ℝ) (i j : ℕ) : ℝ :=
  if i = 0 then t 1 j - t 0 j
  else if i = m - 1 then t (m - 1) j - t (m - 2) j
  else (t (i + 1) j - t (i - 1) j) / 2

/-- Embedding of `np.gradient(terrain)` along axis 1 (columns), for an array
with `n` columns. -/
def npGradient1 (n : ℕ) (t : ℕ → ℕ → ℝ) (i j : ℕ) : ℝ :=
  if j = 0 then t i 1 - t i 0
  else if j = n - 1 then t i (n - 1) - t i (n - 2)
  else (t i (j + 1) - t i (j - 1)) / 2

/-- Source `intensity.py`, `surface_unit_normals`, intermediate value
`surface_normals = np.cross(vr, vc)` where `vr = (dr, 1, 0)` and
`vc = (dc, 0, 1)` per pixel. -/
def surface_normals (m n : ℕ) (t : ℕ → ℕ → ℝ) (i j : ℕ) : Vec3 :=
  cross ⟨npGradient0 m t i j, 1, 0⟩ ⟨npGradient1 n t i j, 0, 1⟩

/-- Source `intensity.py`, `surface_unit_normals`, intermediate value
`normal_magnitudes = np.linalg.norm(surface_normals, axis=2)` per pixel. -/
def normal_magnitudes (m n : ℕ) (t : ℕ → ℕ → ℝ) (i j : ℕ) : ℝ :=
  norm3 (surface_normals m n t i j)

/-- Source `intensity.py`, `surface_unit_normals(terrain)`: per-pixel surface
normal divided componentwise by its magnitude. -/
def surface_unit_normals (m n : ℕ) (t : ℕ → ℕ → ℝ) (i j : ℕ) : Vec3 :=
  ⟨(surface_normals m n t i j).h / normal_magnitudes m n t i j,
   (surface_normals m n t i j).r / normal_magnitudes m n t i j,
   (surface_normals m n t i j).c / normal_magnitudes m n t i j⟩

/-- Source `intensity.py`, `polar_to_cart3d(azimuth, elevation)`: converts the
polar (azimuth, elevation) direction, in degrees, to (height, row, col)
cartesian coordinates. -/
def polar_to_cart3d (azimuth elevation : ℝ) : Vec3 :=
  ⟨Real.sin (elevation * Real.pi / 180),
   Real.cos (elevation * Real.pi / 180) * Real.sin (azimuth * Real.pi / 180),
   Real.cos (elevation * Real.pi / 180) * Real.cos (azimuth * Real.pi / 180)⟩

/-- Source `intensity.py`, `relative_surface_intensity`, intermediate value
`intensity = np.dot(normals, light)` per pixel: the pre-clip cos(theta). -/
def cos_theta (m n : ℕ) (t : ℕ → ℕ → ℝ) (azimuth elevation : ℝ) (i j : ℕ) : ℝ :=
  dot3 (surface_unit_normals m n t i j) (polar_to_cart3d azimuth elevation)

/-- Source `intensity.py`, `relative_surface_intensity(terrain, azimuth,
elevation)` per pixel: `np.clip(intensity, 0.0, 1.0)` of the pre-clip dot
product.  The two `DO_SANITY_CHECKS` assertions of the source
(`intensity >= -1` and `intensity <= 1`) always pass in the exact real model:
see `cos_theta_bounds` below, so the function is embedded as total. -/
def relative_surface_intensity (m n : ℕ) (t : ℕ → ℕ → ℝ)
    (azimuth elevation : ℝ) (i j : ℕ) : ℝ :=
  min (max (cos_theta m n t azimuth elevation i j) 0) 1

/-! ### Supporting lemmas -/

lemma surface_normals_eq (m n : ℕ) (t : ℕ → ℕ → ℝ) (i j : ℕ) :
    surface_normals m n t i j =
      ⟨1, -(npGradient0 m t i j), -(npGradient1 n t i j)⟩ := by
  simp only [surface_normals, cross]
  congr 1 <;> ring

lemma normal_magnitudes_eq (m n : ℕ) (t : ℕ → ℕ → ℝ) (i j : ℕ) :
    normal_magnitudes m n t i j =
      Real.sqrt (1 + npGradient0 m t i j ^ 2 + npGradient1 n t i j ^ 2) := by
  rw [normal_magnitudes, surface_normals_eq, norm3]
  congr 1
  ring

lemma normal_magnitudes_pos (m n : ℕ) (t : ℕ → ℕ → ℝ) (i j : ℕ) :
    0 < normal_magnitudes m n t i j := by
  rw [normal_magnitudes_eq]
  apply Real.sqrt_pos.mpr
  positivity

lemma norm3_surface_unit_normals (m n : ℕ) (t : ℕ → ℕ → ℝ) (i j : ℕ) :
    norm3 (surface_unit_normals m n t i j) = 1 := by
  have hpos := normal_magnitudes_pos m n t i j
  have hne : normal_magnitudes m n t i j ≠ 0 := ne_of_gt hpos
  have hsq : normal_magnitudes m n t i j ^ 2 =
      1 + npGradient0 m t i j ^ 2 + npGradient1 n t i j ^ 2 := by
    rw [normal_magnitudes_eq]
    exact Real.sq_sqrt (by positivity)
  rw [norm3, surface_unit_normals, surface_normals_eq]
  show Real.sqrt ((1 / normal_magnitudes m n t i j) ^ 2 +
      (-npGradient0 m t i j / normal_magnitudes m n t i j) ^ 2 +
      (-npGradient1 n t i j / normal_magnitudes m n t i j) ^ 2) = 1
  have expand : (1 / normal_magnitudes m n t i j) ^ 2 +
      (-npGradient0 m t i j / normal_magnitudes m n t i j) ^ 2 +
      (-npGradient1 n t i j / normal_magnitudes m n t i j) ^ 2 =
      (1 + npGradient0 m t i j ^ 2 + npGradient1 n t i j ^ 2) /
        normal_magnitudes m n t i j ^ 2 := by
    ring
  rw [expand, ← hsq, div_self (pow_ne_zero 2 hne), Real.sqrt_one]

lemma norm3_polar_to_cart3d (azimuth elevation : ℝ) :
    norm3 (polar_to_cart3d azimuth elevation) = 1 := by
  rw [polar_to_cart3d, norm3]
  have harg :
      Real.sin (elevation * Real.pi / 180) ^ 2 +
        (Real.cos (elevation * Real.pi / 180) * Real.sin (azimuth * Real.pi / 180)) ^ 2 +
        (Real.cos (elevation * Real.pi / 180) * Real.cos (azimuth * Real.pi / 180)) ^ 2 = 1 := by
    have ha := Real.sin_sq_add_cos_sq (azimuth * Real.pi / 180)
    have he := Real.sin_sq_add_cos_sq (elevation * Real.pi / 180)
    nlinarith [ha, he]
  rw [harg, Real.sqrt_one]

/-- Sum of squared components expressed through the norm. -/
lemma sum_sq_of_norm3_eq_one {v : Vec3} (hv : norm3 v = 1) :
    v.h ^ 2 + v.r ^ 2 + v.c ^ 2 = 1 := by
  have hs : (0:ℝ) ≤ v.h ^ 2 + v.r ^ 2 + v.c ^ 2 := by positivity
  have := Real.sq_sqrt hs
  rw [norm3] at hv
  rw [hv] at this
  simpa using this.symm

/-- Cauchy–Schwarz for unit 3-vectors: justifies that the `DO_SANITY_CHECKS`
assertions of `relative_surface_intensity` (`-1 <= cos(theta) <= 1`) always
hold in the exact real model. -/
lemma dot3_unit_bounds {a b : Vec3} (ha : norm3 a = 1) (hb : norm3 b = 1) :
    -1 ≤ dot3 a b ∧ dot3 a b ≤ 1 := by
  have ha' := sum_sq_of_norm3_eq_one ha
  have hb' := sum_sq_of_norm3_eq_one hb
  rw [dot3]
  constructor
  · nlinarith [sq_nonneg (a.h + b.h), sq_nonneg (a.r + b.r), sq_nonneg (a.c + b.c)]
  · nlinarith [sq_nonneg (a.h - b.h), sq_nonneg (a.r - b.r), sq_nonneg (a.c - b.c)]

/-- The pre-clip intensity of the source always satisfies the sanity-check
assertions of `relative_surface_intensity`. -/
lemma cos_theta_bounds (m n : ℕ) (t : ℕ → ℕ → ℝ) (azimuth elevation : ℝ) (i j : ℕ) :
    -1 ≤ cos_theta m n t azimuth elevation i j ∧
      cos_theta m n t azimuth elevation i j ≤ 1 :=
  dot3_unit_bounds (norm3_surface_unit_normals m n t i j)
    (norm3_polar_to_cart3d azimuth elevation)

/-! ### Claims C1, C2, C8 -/

/-- Claim C1: for every terrain array (at least 2 rows and 2 columns) and every
azimuth/elevation pair, every pixel of `relative_surface_intensity` lies in
[0,1], and a pixel whose pre-clip dot product cos(theta) is negative is mapped
to exactly 0 (floored, not negated or wrapped). -/
theorem C1_relative_intensity_range (m n : ℕ) (t : ℕ → ℕ → ℝ)
    (azimuth elevation : ℝ) (i j : ℕ)
    (hm : 2 ≤ m) (hn : 2 ≤ n) (hi : i < m) (hj : j < n) :
    0 ≤ relative_surface_intensity m n t azimuth elevation i j ∧
      relative_surface_intensity m n t azimuth elevation i j ≤ 1 ∧
      (cos_theta m n t azimuth elevation i j < 0 →
        relative_surface_intensity m n t azimuth elevation i j = 0) := by
  refine ⟨?_, ?_, ?_⟩
  · exact le_min (le_max_right _ _) zero_le_one
  · exact min_le_right _ _
  · intro hneg
    rw [relative_surface_intensity, max_eq_right hneg.le, min_eq_left zero_le_one]

theorem C1_relative_intensity_range_witness :
    (2 ≤ 2 ∧ 0 < 2 ∧ 0 < 2) ∧
      (0 ≤ relative_surface_intensity 2 2 (fun _ _ => 0) 135 45 0 0 ∧
        relative_surface_intensity 2 2 (fun _ _ => 0) 135 45 0 0 ≤ 1 ∧
        (cos_theta 2 2 (fun _ _ => 0) 135 45 0 0 < 0 →
          relative_surface_intensity 2 2 (fun _ _ => 0) 135 45 0 0 = 0)) :=
  ⟨⟨by norm_num, by norm_num, by norm_num⟩,
    C1_relative_intensity_range 2 2 (fun _ _ => 0) 135 45 0 0
      (by norm_num) (by norm_num) (by norm_num) (by norm_num)⟩

/-- Claim C2: for every height field (at least 2 rows and 2 columns), every
per-pixel 3-vector produced by `surface_unit_normals` has Euclidean magnitude
exactly 1 in the real model, and the normalizing magnitude
`normal_magnitudes` is never zero. -/
theorem C2_unit_normals (m n : ℕ) (t : ℕ → ℕ → ℝ) (i j : ℕ)
    (hm : 2 ≤ m) (hn : 2 ≤ n) (hi : i < m) (hj : j < n) :
    norm3 (surface_unit_normals m n t i j) = 1 ∧
      normal_magnitudes m n t i j ≠ 0 :=
  ⟨norm3_surface_unit_normals m n t i j,
    ne_of_gt (normal_magnitudes_pos m n t i j)⟩

theorem C2_unit_normals_witness :
    (2 ≤ 2 ∧ 0 < 2 ∧ 0 < 2) ∧
      (norm3 (surface_unit_normals 2 2 (fun i j => (i * j : ℝ)) 1 1) = 1 ∧
        normal_magnitudes 2 2 (fun i j => (i * j : ℝ)) 1 1 ≠ 0) :=
  ⟨⟨by norm_num, by norm_num, by norm_num⟩,
    C2_unit_normals 2 2 (fun i j => (i * j : ℝ)) 1 1
      (by norm_num) (by norm_num) (by norm_num) (by norm_num)⟩

/-- Claim C8: for every azimuth and elevation in degrees, `polar_to_cart3d`
returns the 3-vector (sin(elev_rad), cos(elev_rad)*sin(azim_rad),
cos(elev_rad)*cos(azim_rad)), and this vector has Euclidean norm 1. -/
theorem C8_light_direction_unit (azimuth elevation : ℝ) :
    polar_to_cart3d azimuth elevation =
      ⟨Real.sin (elevation * Real.pi / 180),
       Real.cos (elevation * Real.pi / 180) * Real.sin (azimuth * Real.pi / 180),
       Real.cos (elevation * Real.pi / 180) * Real.cos (azimuth * Real.pi / 180)⟩ ∧
      norm3 (polar_to_cart3d azimuth elevation) = 1 :=
  ⟨rfl, norm3_polar_to_cart3d azimuth elevation⟩

/-! ### Claim C7: flat terrain -/

lemma npGradient0_of_const (m : ℕ) (t : ℕ → ℕ → ℝ) (c : ℝ)
    (ht : ∀ i j, t i j = c) (i j : ℕ) : npGradient0 m t i j = 0 := by
  rw [npGradient0]
  split_ifs <;> simp [ht]

lemma npGradient1_of_const (n : ℕ) (t : ℕ → ℕ → ℝ) (c : ℝ)
    (ht : ∀ i j, t i j = c) (i j : ℕ) : npGradient1 n t i j = 0 := by
  rw [npGradient1]
  split_ifs <;> simp [ht]

/-- Claim C7: for every constant (flat) terrain array (at least 2 rows and 2
columns), every azimuth, and every elevation between 0 and 90 degrees,
`relative_surface_intensity` is the uniform field `sin(elevation_rad)` at every
pixel, independent of the azimuth (which does not occur in the right-hand
side). -/
theorem C7_flat_terrain_intensity (m n : ℕ) (t : ℕ → ℕ → ℝ)
    (c azimuth elevation : ℝ) (i j : ℕ)
    (hm : 2 ≤ m) (hn : 2 ≤ n) (ht : ∀ i j, t i j = c)
    (hel0 : 0 ≤ elevation) (hel90 : elevation ≤ 90) (hi : i < m) (hj : j < n) :
    relative_surface_intensity m n t azimuth elevation i j =
      Real.sin (elevation * Real.pi / 180) := by
  have hdr := npGradient0_of_const m t c ht i j
  have hdc := npGradient1_of_const n t c ht i j
  have hct : cos_theta m n t azimuth elevation i j =
      Real.sin (elevation * Real.pi / 180) := by
    rw [cos_theta, surface_unit_normals, surface_normals_eq, normal_magnitudes_eq,
      hdr, hdc]
    simp [dot3, polar_to_cart3d]
  have hsin0 : 0 ≤ Real.sin (elevation * Real.pi / 180) := by
    apply Real.sin_nonneg_of_nonneg_of_le_pi
    · positivity
    · have hpi : (0:ℝ) < Real.pi := Real.pi_pos
      have hprod : 0 ≤ (180 - elevation) * Real.pi := by
        apply mul_nonneg _ hpi.le
        linarith
      rw [div_le_iff (by norm_num : (0:ℝ) < 180)]
      nlinarith
  have hsin1 : Real.sin (elevation * Real.pi / 180) ≤ 1 := Real.sin_le_one _
  rw [relative_surface_intensity, hct, max_eq_left hsin0, min_eq_left hsin1]

theorem C7_flat_terrain_intensity_witness :
    (2 ≤ 2 ∧ (0:ℝ) ≤ 45 ∧ (45:ℝ) ≤ 90) ∧
      relative_surface_intensity 2 2 (fun _ _ => 5) 10 45 0 0 =
        Real.sin (45 * Real.pi / 180) :=
  ⟨⟨by norm_num, by norm_num, by norm_num⟩,
    C7_flat_terrain_intensity 2 2 (fun _ _ => 5) 5 10 45 0 0
      (by norm_num) (by norm_num) (fun _ _ => rfl)
      (by norm_num) (by norm_num) (by norm_num) (by norm_num)⟩

/-! ### weighted_intensity (intensity.py) -/

/-- Source `intensity.py` / `hillshade.py`, `enforce_list(var)`: a scalar is
wrapped in a one-element list, an iterable is turned into the list of its
elements. -/
def enforce_list (var : ℝ ⊕ List ℝ) : List ℝ :=
  match var with
  | .inl x => [x]
  | .inr xs => xs

/-- Source `intensity.py`, `weighted_intensity(terrain, azimuth, elevation,
ambient_weight, lamp_weight)`.  `assert_same_length` raising `AssertionError`
is embedded as `Except.error`; the Python list repetition
`lamp_weights * len(azimuths)` (taken when `len(lamp_weights) == 1`) is
embedded as joined replication.  The internal zero-sum check of `np.average`
(`ZeroDivisionError` when the weights it is given sum to zero) is embedded as
the final guard; `np.average(v, axis=2, weights=w)` itself is the per-pixel
weighted sum divided by the sum of the weights. -/
def weighted_intensity (m n : ℕ) (terrain : ℕ → ℕ → ℝ)
    (azimuth elevation lamp_weight : ℝ ⊕ List ℝ) (ambient_weight : ℝ) :
    Except String (ℕ → ℕ → ℝ) :=
  let azimuths := enforce_list azimuth
  let elevations := enforce_list elevation
  if azimuths.length ≠ elevations.length then
    .error "size mismatch between azimuths and elevations"
  else
    let lw0 := enforce_list lamp_weight
    let lamp_weights := if lw0.length = 1 then (List.replicate azimuths.length lw0).join else lw0
    if azimuths.length ≠ lamp_weights.length then
      .error "size mismatch between azimuths and lamp_weights"
    else
      let rel_intensities : List (ℕ → ℕ → ℝ) :=
        (fun _ _ => 1) ::
          (azimuths.zip elevations).map
            (fun p i j => relative_surface_intensity m n terrain p.1 p.2 i j)
      let weights := ambient_weight :: lamp_weights
      let unit_weights := weights.map (fun w => w / weights.sum)
      if unit_weights.sum = 0 then
        .error "Weights sum to zero"
      else
        .ok (fun i j =>
          ((unit_weights.zip rel_intensities).map (fun p => p.1 * p.2 i j)).sum /
            unit_weights.sum)

/-- Claim C3: for every terrain array and positive scalar weights `w`
(lamp_weight) and `a` (ambient_weight), `weighted_intensity` with a single
lamp at a given azimuth/elevation equals, pixel for pixel,
`(w * relative_surface_intensity(terrain, azimuth, elevation) + a * 1) / (w + a)`. -/
theorem C3_single_lamp_weighted_average (m n : ℕ) (terrain : ℕ → ℕ → ℝ)
    (azimuth elevation w a : ℝ) (hw : 0 < w) (ha : 0 < a) :
    weighted_intensity m n terrain (.inl azimuth) (.inl elevation) (.inl w) a =
      .ok (fun i j =>
        (w * relative_surface_intensity m n terrain azimuth elevation i j + a * 1) /
          (w + a)) := by
  have hsum : a + w ≠ 0 := by positivity
  rw [weighted_intensity]
  simp only [enforce_list, List.length_cons, List.length_nil, List.replicate,
    List.join, List.append_nil, List.zip_cons_cons, List.zip_nil_right,
    List.map_cons, List.map_nil, List.sum_cons, List.sum_nil, ne_eq]
  norm_num
  have hunit : a / (a + w) + w / (a + w) = 1 := by
    field_simp
  rw [if_neg (by rw [hunit]; norm_num)]
  congr 1
  funext i j
  rw [hunit]
  field_simp
  ring

theorem C3_single_lamp_weighted_average_witness :
    ((0:ℝ) < 5 ∧ (0:ℝ) < 1) ∧
      weighted_intensity 2 2 (fun _ _ => 0) (.inl 135) (.inl 45) (.inl 5) 1 =
        .ok (fun i j =>
          (5 * relative_surface_intensity 2 2 (fun _ _ => 0) 135 45 i j + 1 * 1) /
            (5 + 1)) :=
  ⟨⟨by norm_num, by norm_num⟩,
    C3_single_lamp_weighted_average 2 2 (fun _ _ => 0) 135 45 5 1
      (by norm_num) (by norm_num)⟩

/-! ### hill_shade (hillshade.py), real model -/

/-- 2D array with explicit shape, used at the `hill_shade` level where the
source asserts `terrain.shape == data.shape`. -/
structure Arr2 where
  rows : ℕ
  cols : ℕ
  val : ℕ → ℕ → ℝ

/-- Source `hillshade.py`, `hill_shade(data, terrain, azimuth, elevation,
ambient_weight, lamp_weight, cmap, vmin, vmax, norm, blend_function)`.
`terrain=None` defaults to `data`; the two `assert` statements (2-D data is
intrinsic to `Arr2`; shape equality) and the two `assert_same_length` calls
are embedded as `Except.error`.  Unlike `weighted_intensity` there is no
broadcasting step for a singleton `lamp_weights` list.  The colormap pipeline
`color_data(data, cmap, vmin, vmax, norm)` is external (matplotlib) and is
abstracted as the `color_data` parameter; `blend_function` is already an
injected callable in the source. -/
def hill_shade {C R : Type} (data : Arr2) (terrain? : Option Arr2)
    (azimuth elevation lamp_weight : ℝ ⊕ List ℝ) (ambient_weight : ℝ)
    (color_data : Arr2 → C) (blend_function : C → (ℕ → ℕ → ℝ) → R) :
    Except String R :=
  let terrain := terrain?.getD data
  if terrain.rows ≠ data.rows ∨ terrain.cols ≠ data.cols then
    .error "shape mismatch between terrain and data"
  else
    let azimuths := enforce_list azimuth
    let elevations := enforce_list elevation
    let lamp_weights := enforce_list lamp_weight
    if azimuths.length ≠ elevations.length then
      .error "size mismatch between azimuths and elevations"
    else if azimuths.length ≠ lamp_weights.length then
      .error "size mismatch between azimuths and lamp_weights"
    else
      let rel_intensities : List (ℕ → ℕ → ℝ) :=
        (fun _ _ => 1) ::
          (azimuths.zip elevations).map
            (fun p i j =>
              relative_surface_intensity terrain.rows terrain.cols terrain.val p.1 p.2 i j)
      let weights := ambient_weight :: lamp_weights
      let unit_weights := weights.map (fun w => w / weights.sum)
      if unit_weights.sum = 0 then
        .error "Weights sum to zero"
      else
        .ok (blend_function (color_data data)
          (fun i j =>
            ((unit_weights.zip rel_intensities).map (fun p => p.1 * p.2 i j)).sum /
              unit_weights.sum))

/-- Claim C6: for every 2D data array and any fixed choice of all other
parameters, `hill_shade` with `terrain` omitted (None) returns exactly the same
result as `hill_shade` with `terrain = data`. -/
theorem C6_terrain_defaults_to_data {C R : Type} (data : Arr2)
    (azimuth elevation lamp_weight : ℝ ⊕ List ℝ) (ambient_weight : ℝ)
    (color_data : Arr2 → C) (blend_function : C → (ℕ → ℕ → ℝ) → R) :
    hill_shade data none azimuth elevation lamp_weight ambient_weight
        color_data blend_function =
      hill_shade data (some data) azimuth elevation lamp_weight ambient_weight
        color_data blend_function := rfl

/-! ### Claim C10: no lamp-weight broadcasting in hill_shade -/

lemma join_replicate_singleton (k : ℕ) (x : ℝ) :
    (List.replicate k [x]).join = List.replicate k x := by
  induction k with
  | zero => rfl
  | succ k ih => simp [List.replicate_succ, ih]

@[simp] lemma enforce_list_inl (x : ℝ) : enforce_list (.inl x) = [x] := rfl

@[simp] lemma enforce_list_inr (xs : List ℝ) : enforce_list (.inr xs) = xs := rfl

/-- Claim C10: a call to `hill_shade` in which azimuth is a list of `n > 1`
angles and `lamp_weight` a single scalar raises the azimuths/lamp_weights
size-mismatch error, whereas `weighted_intensity` on the same lamp
configuration broadcasts the scalar weight and never produces that error. -/
theorem C10_hill_shade_no_broadcast {C R : Type} (data : Arr2)
    (terrain? : Option Arr2) (azs : List ℝ) (elevation : ℝ ⊕ List ℝ)
    (w ambient_weight : ℝ) (color_data : Arr2 → C)
    (blend_function : C → (ℕ → ℕ → ℝ) → R) (m n : ℕ) (t : ℕ → ℕ → ℝ)
    (hshape : (terrain?.getD data).rows = data.rows ∧
      (terrain?.getD data).cols = data.cols)
    (hlen : (enforce_list elevation).length = azs.length)
    (h2 : 2 ≤ azs.length) :
    hill_shade data terrain? (.inr azs) elevation (.inl w) ambient_weight
        color_data blend_function =
      .error "size mismatch between azimuths and lamp_weights" ∧
    weighted_intensity m n t (.inr azs) elevation (.inl w) ambient_weight ≠
      .error "size mismatch between azimuths and lamp_weights" := by
  obtain ⟨hr, hc⟩ := hshape
  constructor
  · simp only [hill_shade, enforce_list_inl, enforce_list_inr]
    rw [if_neg (by simp [hr, hc])]
    rw [if_neg (by simp [hlen])]
    rw [if_pos (by simp only [List.length_cons, List.length_nil]; omega)]
  · simp only [weighted_intensity, enforce_list_inl, enforce_list_inr]
    rw [if_neg (by simp [hlen])]
    simp only [List.length_cons, List.length_nil, join_replicate_singleton]
    rw [if_neg (by simp [List.length_replicate])]
    split_ifs <;> simp

theorem C10_hill_shade_no_broadcast_witness :
    ((2 ≤ ([(135:ℝ), 270]).length) ∧
      (enforce_list (.inr [45, 45])).length = ([(135:ℝ), 270]).length) ∧
      (@hill_shade Unit Unit ⟨2, 2, fun _ _ => 0⟩ none (.inr [135, 270])
          (.inr [45, 45]) (.inl 1) 0.15 (fun _ => ()) (fun _ _ => ()) =
        .error "size mismatch between azimuths and lamp_weights" ∧
      weighted_intensity 2 2 (fun _ _ => 0) (.inr [135, 270]) (.inr [45, 45])
          (.inl 1) 0.15 ≠
        .error "size mismatch between azimuths and lamp_weights") :=
  ⟨⟨by norm_num, rfl⟩,
    C10_hill_shade_no_broadcast (⟨2, 2, fun _ _ => 0⟩ : Arr2) none [135, 270]
      (.inr [45, 45]) 1 0.15 (fun _ => ()) (fun _ _ => ()) 2 2 (fun _ _ => 0)
      ⟨rfl, rfl⟩ rfl (by norm_num)⟩

/-! ### IEEE-float model: non-finite value propagation (claims C4, C5, C9)

The exact real model above cannot express the NaN/Inf values that the numpy
code produces and propagates; the claims about missing guards are settled over
this model instead.  Finite arithmetic is idealized as exact (no rounding or
overflow); the non-finite constructors follow the IEEE-754 rules that matter
here (NaN is absorbing; every ordered comparison and equality test involving
NaN is false; finite/0 gives a signed infinity and 0/0 gives NaN).  The sign
of floating zero is not modelled; `fin 0` behaves as +0. -/

inductive FVal : Type where
  | fin : ℝ → FVal
  | pinf : FVal
  | ninf : FVal
  | nan : FVal

namespace FVal

def add : FVal → FVal → FVal
  | nan, _ => nan
  | _, nan => nan
  | fin x, fin y => fin (x + y)
  | pinf, ninf => nan
  | ninf, pinf => nan
  | pinf, _ => pinf
  | ninf, _ => ninf
  | _, pinf => pinf
  | _, ninf => ninf

def sub : FVal → FVal → FVal
  | nan, _ => nan
  | _, nan => nan
  | fin x, fin y => fin (x - y)
  | pinf, pinf => nan
  | ninf, ninf => nan
  | pinf, _ => pinf
  | ninf, _ => ninf
  | fin _, pinf => ninf
  | fin _, ninf => pinf

def mul : FVal → FVal → FVal
  | nan, _ => nan
  | _, nan => nan
  | fin x, fin y => fin (x * y)
  | fin x, pinf => if x = 0 then nan else if 0 < x then pinf else ninf
  | fin x, ninf => if x = 0 then nan else if 0 < x then ninf else pinf
  | pinf, fin y => if y = 0 then nan else if 0 < y then pinf else ninf
  | ninf, fin y => if y = 0 then nan else if 0 < y then ninf else pinf
  | pinf, pinf => pinf
  | pinf, ninf => ninf
  | ninf, pinf => ninf
  | ninf, ninf => pinf

def div : FVal → FVal → FVal
  | nan, _ => nan
  | _, nan => nan
  | fin x, fin y =>
      if y = 0 then (if x = 0 then nan else if 0 < x then pinf else ninf)
      else fin (x / y)
  | fin _, pinf => fin 0
  | fin _, ninf => fin 0
  | pinf, fin y => if 0 ≤ y then pinf else ninf
  | ninf, fin y => if 0 ≤ y then ninf else pinf
  | pinf, _ => nan
  | ninf, _ => nan

def sqrtF : FVal → FVal
  | nan => nan
  | pinf => pinf
  | ninf => nan
  | fin x => if x < 0 then nan else fin (Real.sqrt x)

/-- Boolean `>=` with IEEE semantics: any comparison involving NaN is false. -/
def geBool : FVal → FVal → Bool
  | nan, _ => false
  | _, nan => false
  | fin x, fin y => decide (y ≤ x)
  | pinf, _ => true
  | _, pinf => false
  | _, ninf => true
  | ninf, _ => false

/-- Boolean `<=` with IEEE semantics. -/
def leBool (a b : FVal) : Bool := geBool b a

/-- Boolean `==` with IEEE semantics: NaN is not equal to anything. -/
def eqBool : FVal → FVal → Bool
  | nan, _ => false
  | _, nan => false
  | fin x, fin y => decide (x = y)
  | pinf, pinf => true
  | ninf, ninf => true
  | _, _ => false

def isFiniteB : FVal → Bool
  | fin _ => true
  | _ => false

/-- IEEE maximum as used by `np.clip`/`np.maximum`: NaN propagates. -/
def maxF : FVal → FVal → FVal
  | nan, _ => nan
  | _, nan => nan
  | fin x, fin y => fin (max x y)
  | pinf, _ => pinf
  | _, pinf => pinf
  | ninf, b => b
  | a, ninf => a

/-- IEEE minimum as used by `np.clip`/`np.minimum`: NaN propagates. -/
def minF : FVal → FVal → FVal
  | nan, _ => nan
  | _, nan => nan
  | fin x, fin y => fin (min x y)
  | ninf, _ => ninf
  | _, ninf => ninf
  | pinf, b => b
  | a, pinf => a

end FVal

/-- `np.sum` over a list of float values (sum starts from 0). -/
def listSumF (l : List FVal) : FVal := l.foldr FVal.add (FVal.fin 0)

/-! ### Claim C9: is_non_finite_mask / replace_nans (hillshade.py) -/

/-- Source `hillshade.py`, `is_non_finite_mask(array)`: the body computes
`np.logical_not(np.isfinite(array))` but never returns it — the Python
function falls off the end and returns `None`.  The computed mask is kept
here as an unused binding to mirror the body. -/
def is_non_finite_mask (array : ℕ → ℕ → FVal) : Option (ℕ → ℕ → Bool) :=
  let _mask := fun i j => !(FVal.isFiniteB (array i j))
  none

/-- `np.any` applied to an optional boolean mask over an m×n array:
`np.any(None)` is `False` (None converts to a 0-d object array that is
falsy). -/
def npAnyMask (m n : ℕ) (mask : Option (ℕ → ℕ → Bool)) : Bool :=
  match mask with
  | none => false
  | some f => (List.range m).any fun i => (List.range n).any fun j => f i j

/-- Source `hillshade.py`, `replace_nans(array, array_nan_value, mask=None)`:
copies the array, fills in the default mask from `is_non_finite_mask` when no
mask is passed, and writes `array_nan_value` at masked positions only when
`np.any(mask)` holds. -/
def replace_nans (m n : ℕ) (array : ℕ → ℕ → FVal) (array_nan_value : FVal)
    (mask : Option (ℕ → ℕ → Bool)) : ℕ → ℕ → FVal :=
  let mask' := match mask with
    | none => is_non_finite_mask array
    | some mk => some mk
  if npAnyMask m n mask' then
    fun i j => if (mask'.getD fun _ _ => false) i j then array_nan_value else array i j
  else
    fun i j => array i j

/-- Claim C9: for every array (including arrays containing NaN or Inf) and
every replacement value, `replace_nans` called without an explicit mask
returns an element-wise identical copy of its input — no element is ever
replaced — because `is_non_finite_mask` returns None for every input (its
computed mask is not returned). -/
theorem C9_replace_nans_is_identity (m n : ℕ) (array : ℕ → ℕ → FVal)
    (array_nan_value : FVal) :
    is_non_finite_mask array = none ∧
      replace_nans m n array array_nan_value none = array :=
  ⟨rfl, rfl⟩

/-! ### Claim C4: no guard against a zero sum of weights -/

/-- Embedding of `np.average(values, axis=2, weights=unit_weights)` at one
pixel: numpy sums the weights, raises `ZeroDivisionError` when that sum
compares equal to zero (an IEEE comparison, hence false for NaN), and
otherwise returns the weighted sum divided by the weight sum. -/
def np_average_weighted (layers : List FVal) (unit_weights : List FVal) :
    Except String FVal :=
  let scl := listSumF unit_weights
  if FVal.eqBool scl (FVal.fin 0) then
    .error "ZeroDivisionError: Weights sum to zero"
  else
    .ok (FVal.div (listSumF ((unit_weights.zip layers).map (fun p => FVal.mul p.1 p.2)))
      scl)

/-- Source `intensity.py` lines 62–76 (`weighted_intensity`) and the inlined
copy in `hillshade.py` lines 226–237 (`hill_shade`): the weight-combination
arithmetic at one pixel, with the per-lamp relative intensities of that pixel
given as `relInts`.  The weights list is `ambient_weight :: lamp_weights`,
`unit_weights = weights / np.sum(weights)` (float division, unguarded), and
the result is `np.average` of the all-ones ambient layer and the lamp layers
with those unit weights. -/
def combine_intensities (relInts : List FVal) (lamp_weights : List ℝ)
    (ambient_weight : ℝ) : Except String FVal :=
  let weights := (ambient_weight :: lamp_weights).map FVal.fin
  let unit_weights := weights.map (fun w => FVal.div w (listSumF weights))
  np_average_weighted (FVal.fin 1 :: relInts) unit_weights

/-- Claim C4 is refuted by evaluating the code at a failing input: with
`ambient_weight = 0` and a single lamp of weight 0 (so the sum of ambient and
lamp weights is zero) and a fully lit pixel, the combination performed by
`weighted_intensity`/`hill_shade` is not guarded at all: the division of the
weights by their zero sum produces NaN unit weights, `np.average`'s own
zero-sum test does not fire (NaN never compares equal to 0), and the call
silently returns NaN instead of failing with a configuration error. -/
theorem C4_zero_weight_sum_unguarded :
    combine_intensities [FVal.fin 1] [0] 0 = .ok FVal.nan := by
  norm_num [combine_intensities, np_average_weighted, listSumF, FVal.add,
    FVal.div, FVal.mul, FVal.eqBool]

/-! ### Claim C5: hill_shade on non-finite terrain (float model) -/

/-- 2D float array with explicit shape. -/
structure FArr2 where
  rows : ℕ
  cols : ℕ
  val : ℕ → ℕ → FVal

/-- 3-vectors of float values, (height, row, col) component order. -/
structure FVec3 where
  h : FVal
  r : FVal
  c : FVal

def crossF (a b : FVec3) : FVec3 :=
  ⟨FVal.sub (FVal.mul a.r b.c) (FVal.mul a.c b.r),
   FVal.sub (FVal.mul a.c b.h) (FVal.mul a.h b.c),
   FVal.sub (FVal.mul a.h b.r) (FVal.mul a.r b.h)⟩

def dotF (a b : FVec3) : FVal :=
  FVal.add (FVal.add (FVal.mul a.h b.h) (FVal.mul a.r b.r)) (FVal.mul a.c b.c)

def norm3F (v : FVec3) : FVal :=
  FVal.sqrtF (FVal.add (FVal.add (FVal.mul v.h v.h) (FVal.mul v.r v.r))
    (FVal.mul v.c v.c))

def npGradient0F (m : ℕ) (t : ℕ → ℕ → FVal) (i j : ℕ) : FVal :=
  if i = 0 then FVal.sub (t 1 j) (t 0 j)
  else if i = m - 1 then FVal.sub (t (m - 1) j) (t (m - 2) j)
  else FVal.div (FVal.sub (t (i + 1) j) (t (i - 1) j)) (FVal.fin 2)

def npGradient1F (n : ℕ) (t : ℕ → ℕ → FVal) (i j : ℕ) : FVal :=
  if j = 0 then FVal.sub (t i 1) (t i 0)
  else if j = n - 1 then FVal.sub (t i (n - 1)) (t i (n - 2))
  else FVal.div (FVal.sub (t i (j + 1)) (t i (j - 1))) (FVal.fin 2)

/-- Float version of `surface_unit_normals` (intensity.py): cross product of
the two tangent vectors divided by its magnitude, with NaN from the terrain
propagating through gradient, cross product, norm and division. -/
def surface_unit_normalsF (m n : ℕ) (t : ℕ → ℕ → FVal) (i j : ℕ) : FVec3 :=
  let sn := crossF ⟨npGradient0F m t i j, FVal.fin 1, FVal.fin 0⟩
    ⟨npGradient1F n t i j, FVal.fin 0, FVal.fin 1⟩
  ⟨FVal.div sn.h (norm3F sn), FVal.div sn.r (norm3F sn), FVal.div sn.c (norm3F sn)⟩

def finVec (v : Vec3) : FVec3 := ⟨.fin v.h, .fin v.r, .fin v.c⟩

/-- Float version of the pre-clip `intensity = np.dot(normals, light)` of
`relative_surface_intensity`.  The light vector itself is always finite. -/
def cos_thetaF (m n : ℕ) (t : ℕ → ℕ → FVal) (azimuth elevation : ℝ) (i j : ℕ) : FVal :=
  dotF (surface_unit_normalsF m n t i j) (finVec (polar_to_cart3d azimuth elevation))

/-- `np.all` of a per-pixel predicate over an m×n array. -/
def allPix (m n : ℕ) (p : ℕ → ℕ → Bool) : Bool :=
  (List.range m).all fun i => (List.range n).all fun j => p i j

/-- Float version of `relative_surface_intensity` with the two
`DO_SANITY_CHECKS` assertions embedded as `Except.error` (a failed Python
`assert` raises `AssertionError`).  The preceding light-norm check always
passes (`norm3_polar_to_cart3d`) and is omitted.  An IEEE comparison against
NaN is false, so any NaN pixel makes the first `np.all(intensity >= -1.0)`
assertion fail. -/
def relative_surface_intensityF (m n : ℕ) (t : ℕ → ℕ → FVal)
    (azimuth elevation : ℝ) : Except String (ℕ → ℕ → FVal) :=
  if allPix m n (fun i j =>
      FVal.geBool (cos_thetaF m n t azimuth elevation i j) (FVal.fin (-1))) then
    if allPix m n (fun i j =>
        FVal.leBool (cos_thetaF m n t azimuth elevation i j) (FVal.fin 1)) then
      .ok fun i j =>
        FVal.minF (FVal.maxF (cos_thetaF m n t azimuth elevation i j) (FVal.fin 0))
          (FVal.fin 1)
    else .error "sanity check: cos(theta) should be <= 1"
  else .error "sanity check: cos(theta) should be >= -1"

/-- The per-lamp loop of `hill_shade`: each iteration calls
`relative_surface_intensity`, and any exception it raises propagates out. -/
def collectRels (m n : ℕ) (t : ℕ → ℕ → FVal) :
    List (ℝ × ℝ) → Except String (List (ℕ → ℕ → FVal))
  | [] => .ok []
  | p :: rest =>
    match relative_surface_intensityF m n t p.1 p.2 with
    | .error e => .error e
    | .ok r =>
      match collectRels m n t rest with
      | .error e => .error e
      | .ok rs => .ok (r :: rs)

/-- Source `hillshade.py`, `hill_shade`, over the float model.  Structure as
in the real-model `hill_shade` above; there is no call to `replace_nans` (or
any other sanitization of the terrain) anywhere in the body, so non-finite
terrain values flow straight into `relative_surface_intensity`. -/
def hill_shadeF {C R : Type} (data : FArr2) (terrain? : Option FArr2)
    (azimuth elevation lamp_weight : ℝ ⊕ List ℝ) (ambient_weight : ℝ)
    (color_data : FArr2 → C) (blend_function : C → (ℕ → ℕ → FVal) → R) :
    Except String R :=
  let terrain := terrain?.getD data
  if terrain.rows ≠ data.rows ∨ terrain.cols ≠ data.cols then
    .error "shape mismatch between terrain and data"
  else
    let azimuths := enforce_list azimuth
    let elevations := enforce_list elevation
    let lamp_weights := enforce_list lamp_weight
    if azimuths.length ≠ elevations.length then
      .error "size mismatch between azimuths and elevations"
    else if azimuths.length ≠ lamp_weights.length then
      .error "size mismatch between azimuths and lamp_weights"
    else
      match collectRels terrain.rows terrain.cols terrain.val
          (azimuths.zip elevations) with
      | .error e => .error e
      | .ok rels =>
        let layers : List (ℕ → ℕ → FVal) := (fun _ _ => FVal.fin 1) :: rels
        let weights := (ambient_weight :: lamp_weights).map FVal.fin
        let unit_weights := weights.map (fun w => FVal.div w (listSumF weights))
        let scl := listSumF unit_weights
        if FVal.eqBool scl (FVal.fin 0) then
          .error "ZeroDivisionError: Weights sum to zero"
        else
          .ok (blend_function (color_data data)
            (fun i j =>
              FVal.div
                (listSumF ((unit_weights.zip layers).map
                  (fun p => FVal.mul p.1 (p.2 i j))))
                scl))

/-- A 2×2 terrain whose (0,0) entry is NaN. -/
def nanTerrain : FArr2 :=
  ⟨2, 2, fun i j => if i = 0 ∧ j = 0 then FVal.nan else FVal.fin 0⟩

lemma allPix_eq_false_of (m n : ℕ) (p : ℕ → ℕ → Bool) (i j : ℕ)
    (hi : i < m) (hj : j < n) (hp : p i j = false) : allPix m n p = false := by
  rw [allPix]
  have hinner : (List.range n).all (fun j => p i j) = false := by
    rw [List.all_eq_false]
    exact ⟨j, List.mem_range.mpr hj, by simp [hp]⟩
  rw [List.all_eq_false]
  exact ⟨i, List.mem_range.mpr hi, by simp [hinner]⟩

lemma cos_thetaF_nanTerrain_00 (azimuth elevation : ℝ) :
    cos_thetaF 2 2 nanTerrain.val azimuth elevation 0 0 = FVal.nan := by
  have h00 : nanTerrain.val 0 0 = FVal.nan := by simp [nanTerrain]
  have h10 : nanTerrain.val 1 0 = FVal.fin 0 := by simp [nanTerrain]
  have h01 : nanTerrain.val 0 1 = FVal.fin 0 := by simp [nanTerrain]
  have hdr : npGradient0F 2 nanTerrain.val 0 0 = FVal.nan := by
    rw [npGradient0F, if_pos rfl, h10, h00]
    rfl
  have hdc : npGradient1F 2 nanTerrain.val 0 0 = FVal.nan := by
    rw [npGradient1F, if_pos rfl, h01, h00]
    rfl
  rw [cos_thetaF, surface_unit_normalsF, hdr, hdc]
  simp only [crossF, dotF, norm3F, FVal.mul, FVal.sub, FVal.add, FVal.div,
    FVal.sqrtF, finVec]

/-- Claim C5 is refuted by evaluating the code at a failing input: on a 2×2
terrain whose (0,0) entry is NaN, `hill_shade` performs no replacement of
non-finite values (it never calls `replace_nans`, and has no fallback-value
parameter); the NaN propagates through the gradient, normal and dot-product
computation into the intensity array, where the internal sanity assertion
`np.all(intensity >= -1.0)` fails, so the call raises `AssertionError`
instead of shading a sanitized terrain. -/
theorem C5_nan_terrain_not_sanitized :
    @hill_shadeF Unit Unit nanTerrain none (.inl 135) (.inl 45) (.inl 1) 0.15
        (fun _ => ()) (fun _ _ => ()) =
      .error "sanity check: cos(theta) should be >= -1" := by
  have hge : FVal.geBool (cos_thetaF 2 2 nanTerrain.val 135 45 0 0)
      (FVal.fin (-1)) = false := by
    rw [cos_thetaF_nanTerrain_00]
    rfl
  have hall : allPix 2 2 (fun i j =>
      FVal.geBool (cos_thetaF 2 2 nanTerrain.val 135 45 i j) (FVal.fin (-1))) =
      false :=
    allPix_eq_false_of 2 2 _ 0 0 (by norm_num) (by norm_num) hge
  have hrel : relative_surface_intensityF 2 2 nanTerrain.val 135 45 =
      .error "sanity check: cos(theta) should be >= -1" := by
    rw [relative_surface_intensityF, hall]
    rfl
  have hcoll : collectRels 2 2 nanTerrain.val [((135:ℝ), (45:ℝ))] =
      .error "sanity check: cos(theta) should be >= -1" := by
    rw [collectRels, hrel]
  have hrows : nanTerrain.rows = 2 := rfl
  have hcols : nanTerrain.cols = 2 := rfl
  simp only [hill_shadeF, enforce_list_inl, Option.getD, hrows, hcols]
  norm_num [hcoll]

end

end HillShading
